import Mathlib

/-!
Shallow embedding of the bbq10kbd I2C keyboard driver (src/lib.rs and
src/async.rs) and verification of its specification.

Bytes are modelled as `Nat` values below 256; machine bit operations of the
source (`&`, `|`, `>>`, `^`) become `&&&`, `|||`, `>>>`, `^^^` on `Nat`.
The I2C transport is modelled as an oracle: each primitive bus call either
fails with a transport-level error of an abstract type `ε` or succeeds,
a successful read yielding the bytes placed in the caller's buffer.  Every
driver operation additionally returns the ordered list of bus phases it
attempted, so that claims about wire traffic can be stated.
-/

namespace Bbq

/-- Fixed peripheral address (`KBD_ADDR` in src/lib.rs, 0x1F). -/
def KBD_ADDR : Nat := 0x1F

/-- The crate's error type (`Error` in src/lib.rs): one opaque variant for
any bus failure. -/
inductive Error
  | I2c
deriving DecidableEq, Repr

/-- Firmware version (`Version` in src/lib.rs). -/
structure Version where
  major : Nat
  minor : Nat
deriving DecidableEq, Repr

/-- Raw key event from the FIFO (`KeyRaw` in src/lib.rs). -/
inductive KeyRaw
  | Invalid
  | Pressed (n : Nat)
  | Held (n : Nat)
  | Released (n : Nat)
deriving DecidableEq, Repr

/-- NumLock state (`NumLockState` in src/lib.rs). -/
inductive NumLockState
  | Off
  | On
deriving DecidableEq, Repr

/-- CapsLock state (`CapsLockState` in src/lib.rs); `Unknown` marks the
documented firmware ambiguity. -/
inductive CapsLockState
  | Off
  | On
  | Unknown
deriving DecidableEq, Repr

/-- FIFO element count (`FifoCount` in src/lib.rs); `EmptyOr32` marks the
same firmware ambiguity. -/
inductive FifoCount
  | Known (n : Nat)
  | EmptyOr32
deriving DecidableEq, Repr

/-- Key status register contents (`KeyStatus` in src/lib.rs). -/
structure KeyStatus where
  num_lock : NumLockState
  caps_lock : CapsLockState
  fifo_count : FifoCount
deriving DecidableEq, Repr

namespace register

/-- Write-flag bit (`register::WRITE`). -/
def WRITE : Nat := 0x80

/-- Version register id (`register::VERSION`). -/
def VERSION : Nat := 0x01

/-- Key-status register id (`register::KEY_STATUS`). -/
def KEY_STATUS : Nat := 0x04

/-- Backlight register id (`register::BACKLIGHT`). -/
def BACKLIGHT : Nat := 0x05

/-- Reset register id (`register::RESET`). -/
def RESET : Nat := 0x08

/-- FIFO register id (`register::FIFO`). -/
def FIFO : Nat := 0x09

end register

/-- Embedding of `Version::from_byte` (src/lib.rs lines 221-228):
major is the high nibble, minor the low nibble. -/
def Version.from_byte (byte : Nat) : Version :=
  { major := (byte &&& 0xF0) >>> 4
    minor := byte &&& 0x0F }

/-- Embedding of `KeyRaw::from_bytes` (src/lib.rs lines 230-239): the first
byte is the event tag, the second the key id. -/
def KeyRaw.from_bytes : Nat × Nat → KeyRaw
  | (1, n) => .Pressed n
  | (2, n) => .Held n
  | (3, n) => .Released n
  | (_, _) => .Invalid

/-- Embedding of `KeyStatus::from_byte` (src/lib.rs lines 241-270): bit 6 is
num-lock and is masked out, bit 5 is the caps flag, bits 4-0 the raw FIFO
count; caps flag set with zero count is the ambiguous case. -/
def KeyStatus.from_byte (byte0 : Nat) : KeyStatus :=
  let num_lock := if byte0 &&& 0b01000000 ≠ 0 then NumLockState.On
    else NumLockState.Off
  let byte := byte0 &&& 0b10111111
  let capslock := byte &&& 0b00100000 ≠ 0
  let fifo_ct := byte &&& 0b00011111
  if capslock then
    if fifo_ct = 0 then
      { caps_lock := CapsLockState.Unknown
        num_lock := num_lock
        fifo_count := FifoCount.EmptyOr32 }
    else
      { caps_lock := CapsLockState.On
        num_lock := num_lock
        fifo_count := FifoCount.Known fifo_ct }
  else
    { caps_lock := CapsLockState.Off
      num_lock := num_lock
      fifo_count := FifoCount.Known fifo_ct }

/-- Well-formedness of a decoded FIFO count: a known count fits in 5 bits. -/
def FifoCount.inRange : FifoCount → Bool
  | .Known n => n < 32
  | .EmptyOr32 => true

/-- One primitive addressed bus phase, as seen on the wire. -/
inductive WirePhase
  | write (addr : Nat) (data : List Nat)
  | read (addr : Nat) (len : Nat)
deriving DecidableEq, Repr

/-- Peripheral address a wire phase targets. -/
def WirePhase.addr : WirePhase → Nat
  | .write a _ => a
  | .read a _ => a

/-- Boolean success test for an `Except` result. -/
def exOk {ε α : Type} : Except ε α → Bool
  | .ok _ => true
  | .error _ => false

/-- Contents of a zero-initialised `len`-byte buffer after the bus delivers
`bs`: the delivered bytes, padded with zeroes and truncated to `len`. -/
def readBuf (len : Nat) (bs : List Nat) : List Nat :=
  (bs ++ List.replicate len 0).take len

/-- Oracle for the blocking transport (embedded-hal `Read` and `Write`):
each addressed write or read either fails with a transport error of type `ε`
or succeeds, a successful read yielding the delivered bytes. -/
structure SyncBus (ε : Type) where
  writeRes : Nat → List Nat → Except ε Unit
  readRes : Nat → Nat → Except ε (List Nat)

/-- Oracle for the suspend-capable transport (embedded-hal-async `I2c`): a
combined write-then-read transaction yielding the read bytes, and a plain
addressed write. -/
structure AsyncBus (ε : Type) where
  transWR : Nat → List Nat → Nat → Except ε (List Nat)
  writeRes : Nat → List Nat → Except ε Unit

/-- A bus call of the suspend-capable driver. -/
inductive AsyncOp
  | transaction (addr : Nat) (writeData : List Nat) (readLen : Nat)
  | write (addr : Nat) (data : List Nat)
deriving DecidableEq, Repr

/-- Wire phases of one async bus call: a combined transaction puts a write
of the request bytes and then a read on the wire, at one address. -/
def AsyncOp.flatten : AsyncOp → List WirePhase
  | .transaction a w r => [.write a w, .read a r]
  | .write a d => [.write a d]

/-- Predicate for a blocking bus with no failing calls. -/
def SyncBus.NoFail {ε : Type} (bus : SyncBus ε) : Prop :=
  (∀ a d, exOk (bus.writeRes a d) = true) ∧
  (∀ a n, exOk (bus.readRes a n) = true)

/-- Predicate for a suspend-capable bus with no failing calls. -/
def AsyncBus.NoFail {ε : Type} (bus : AsyncBus ε) : Prop :=
  (∀ a w n, exOk (bus.transWR a w n) = true) ∧
  (∀ a d, exOk (bus.writeRes a d) = true)

/-- The blocking driver (`Bbq10Kbd` in src/lib.rs): owns the transport. -/
structure Bbq10Kbd (I2C : Type) where
  i2c : I2C

/-- Embedding of `Bbq10Kbd::new`: wrap the supplied transport handle. -/
def Bbq10Kbd.new {I2C : Type} (i2c : I2C) : Bbq10Kbd I2C := ⟨i2c⟩

/-- Embedding of `Bbq10Kbd::release`: consume self, returning the inner
transport handle. -/
def Bbq10Kbd.release {I2C : Type} (self : Bbq10Kbd I2C) : I2C := self.i2c

/-- Embedding of `Bbq10Kbd::get_version` (src/lib.rs lines 134-148): write
[VERSION], read one byte, decode; a transport failure at either phase maps
to `Error.I2c` and stops the operation.  The second component is the ordered
list of bus phases attempted. -/
def Bbq10Kbd.get_version {ε : Type} (self : Bbq10Kbd (SyncBus ε)) :
    Except Error Version × List WirePhase :=
  match self.i2c.writeRes KBD_ADDR [register.VERSION] with
  | .error _ =>
    (.error Error.I2c, [WirePhase.write KBD_ADDR [register.VERSION]])
  | .ok _ =>
    match self.i2c.readRes KBD_ADDR 1 with
    | .error _ =>
      (.error Error.I2c,
       [WirePhase.write KBD_ADDR [register.VERSION],
        WirePhase.read KBD_ADDR 1])
    | .ok bs =>
      (.ok (Version.from_byte ((readBuf 1 bs).headD 0)),
       [WirePhase.write KBD_ADDR [register.VERSION],
        WirePhase.read KBD_ADDR 1])

/-- Embedding of `Bbq10Kbd::get_fifo_key_raw` (src/lib.rs lines 151-165):
write [FIFO], read two bytes into a zeroed buffer, decode. -/
def Bbq10Kbd.get_fifo_key_raw {ε : Type} (self : Bbq10Kbd (SyncBus ε)) :
    Except Error KeyRaw × List WirePhase :=
  match self.i2c.writeRes KBD_ADDR [register.FIFO] with
  | .error _ =>
    (.error Error.I2c, [WirePhase.write KBD_ADDR [register.FIFO]])
  | .ok _ =>
    match self.i2c.readRes KBD_ADDR 2 with
    | .error _ =>
      (.error Error.I2c,
       [WirePhase.write KBD_ADDR [register.FIFO], WirePhase.read KBD_ADDR 2])
    | .ok bs =>
      (.ok (KeyRaw.from_bytes
              ((readBuf 2 bs).headD 0, (readBuf 2 bs).getD 1 0)),
       [WirePhase.write KBD_ADDR [register.FIFO], WirePhase.read KBD_ADDR 2])

/-- Embedding of `Bbq10Kbd::get_backlight` (src/lib.rs lines 168-180):
write [BACKLIGHT], read one byte, return it raw. -/
def Bbq10Kbd.get_backlight {ε : Type} (self : Bbq10Kbd (SyncBus ε)) :
    Except Error Nat × List WirePhase :=
  match self.i2c.writeRes KBD_ADDR [register.BACKLIGHT] with
  | .error _ =>
    (.error Error.I2c, [WirePhase.write KBD_ADDR [register.BACKLIGHT]])
  | .ok _ =>
    match self.i2c.readRes KBD_ADDR 1 with
    | .error _ =>
      (.error Error.I2c,
       [WirePhase.write KBD_ADDR [register.BACKLIGHT],
        WirePhase.read KBD_ADDR 1])
    | .ok bs =>
      (.ok ((readBuf 1 bs).headD 0),
       [WirePhase.write KBD_ADDR [register.BACKLIGHT],
        WirePhase.read KBD_ADDR 1])

/-- Embedding of `Bbq10Kbd::set_backlight` (src/lib.rs lines 183-190): one
write of [BACKLIGHT ||| WRITE, level], no read. -/
def Bbq10Kbd.set_backlight {ε : Type} (self : Bbq10Kbd (SyncBus ε))
    (level : Nat) : Except Error Unit × List WirePhase :=
  match self.i2c.writeRes KBD_ADDR
      [register.BACKLIGHT ||| register.WRITE, level] with
  | .error _ =>
    (.error Error.I2c,
     [WirePhase.write KBD_ADDR [register.BACKLIGHT ||| register.WRITE, level]])
  | .ok _ =>
    (.ok (),
     [WirePhase.write KBD_ADDR [register.BACKLIGHT ||| register.WRITE, level]])

/-- Embedding of `Bbq10Kbd::sw_reset` (src/lib.rs lines 196-203): one write
of [RESET], no read. -/
def Bbq10Kbd.sw_reset {ε : Type} (self : Bbq10Kbd (SyncBus ε)) :
    Except Error Unit × List WirePhase :=
  match self.i2c.writeRes KBD_ADDR [register.RESET] with
  | .error _ =>
    (.error Error.I2c, [WirePhase.write KBD_ADDR [register.RESET]])
  | .ok _ =>
    (.ok (), [WirePhase.write KBD_ADDR [register.RESET]])

/-- Embedding of `Bbq10Kbd::get_key_status` (src/lib.rs lines 206-218):
write [KEY_STATUS], read one byte, decode. -/
def Bbq10Kbd.get_key_status {ε : Type} (self : Bbq10Kbd (SyncBus ε)) :
    Except Error KeyStatus × List WirePhase :=
  match self.i2c.writeRes KBD_ADDR [register.KEY_STATUS] with
  | .error _ =>
    (.error Error.I2c, [WirePhase.write KBD_ADDR [register.KEY_STATUS]])
  | .ok _ =>
    match self.i2c.readRes KBD_ADDR 1 with
    | .error _ =>
      (.error Error.I2c,
       [WirePhase.write KBD_ADDR [register.KEY_STATUS],
        WirePhase.read KBD_ADDR 1])
    | .ok bs =>
      (.ok (KeyStatus.from_byte ((readBuf 1 bs).headD 0)),
       [WirePhase.write KBD_ADDR [register.KEY_STATUS],
        WirePhase.read KBD_ADDR 1])

/-- The suspend-capable driver (`AsyncBbq10Kbd` in src/async.rs): owns the
transport. -/
structure AsyncBbq10Kbd (I2C : Type) where
  i2c : I2C

/-- Embedding of `AsyncBbq10Kbd::new`. -/
def AsyncBbq10Kbd.new {I2C : Type} (i2c : I2C) : AsyncBbq10Kbd I2C := ⟨i2c⟩

/-- Embedding of `AsyncBbq10Kbd::release`: consume self, returning the inner
transport handle. -/
def AsyncBbq10Kbd.release {I2C : Type} (self : AsyncBbq10Kbd I2C) : I2C :=
  self.i2c

/-- Embedding of `AsyncBbq10Kbd::get_version` (src/async.rs lines 30-41):
one combined write-[VERSION]-then-read-1 transaction; a transport failure is
propagated as the transport's own error value. -/
def AsyncBbq10Kbd.get_version {ε : Type} (self : AsyncBbq10Kbd (AsyncBus ε)) :
    Except ε Version × List AsyncOp :=
  match self.i2c.transWR KBD_ADDR [register.VERSION] 1 with
  | .error e =>
    (.error e, [AsyncOp.transaction KBD_ADDR [register.VERSION] 1])
  | .ok bs =>
    (.ok (Version.from_byte ((readBuf 1 bs).headD 0)),
     [AsyncOp.transaction KBD_ADDR [register.VERSION] 1])

/-- Embedding of `AsyncBbq10Kbd::get_fifo_key_raw` (src/async.rs lines
44-55): one combined write-[FIFO]-then-read-2 transaction. -/
def AsyncBbq10Kbd.get_fifo_key_raw {ε : Type}
    (self : AsyncBbq10Kbd (AsyncBus ε)) :
    Except ε KeyRaw × List AsyncOp :=
  match self.i2c.transWR KBD_ADDR [register.FIFO] 2 with
  | .error e =>
    (.error e, [AsyncOp.transaction KBD_ADDR [register.FIFO] 2])
  | .ok bs =>
    (.ok (KeyRaw.from_bytes
            ((readBuf 2 bs).headD 0, (readBuf 2 bs).getD 1 0)),
     [AsyncOp.transaction KBD_ADDR [register.FIFO] 2])

/-- Embedding of `AsyncBbq10Kbd::get_backlight` (src/async.rs lines 58-69):
one combined write-[BACKLIGHT]-then-read-1 transaction. -/
def AsyncBbq10Kbd.get_backlight {ε : Type}
    (self : AsyncBbq10Kbd (AsyncBus ε)) :
    Except ε Nat × List AsyncOp :=
  match self.i2c.transWR KBD_ADDR [register.BACKLIGHT] 1 with
  | .error e =>
    (.error e, [AsyncOp.transaction KBD_ADDR [register.BACKLIGHT] 1])
  | .ok bs =>
    (.ok ((readBuf 1 bs).headD 0),
     [AsyncOp.transaction KBD_ADDR [register.BACKLIGHT] 1])

/-- Embedding of `AsyncBbq10Kbd::set_backlight` (src/async.rs lines 72-79):
one write of [BACKLIGHT ||| WRITE, level], no read. -/
def AsyncBbq10Kbd.set_backlight {ε : Type}
    (self : AsyncBbq10Kbd (AsyncBus ε)) (level : Nat) :
    Except ε Unit × List AsyncOp :=
  match self.i2c.writeRes KBD_ADDR
      [register.BACKLIGHT ||| register.WRITE, level] with
  | .error e =>
    (.error e,
     [AsyncOp.write KBD_ADDR [register.BACKLIGHT ||| register.WRITE, level]])
  | .ok _ =>
    (.ok (),
     [AsyncOp.write KBD_ADDR [register.BACKLIGHT ||| register.WRITE, level]])

/-- Embedding of `AsyncBbq10Kbd::sw_reset` (src/async.rs lines 85-92): one
write of [RESET], no read. -/
def AsyncBbq10Kbd.sw_reset {ε : Type} (self : AsyncBbq10Kbd (AsyncBus ε)) :
    Except ε Unit × List AsyncOp :=
  match self.i2c.writeRes KBD_ADDR [register.RESET] with
  | .error e =>
    (.error e, [AsyncOp.write KBD_ADDR [register.RESET]])
  | .ok _ =>
    (.ok (), [AsyncOp.write KBD_ADDR [register.RESET]])

/-- Embedding of `AsyncBbq10Kbd::get_key_status` (src/async.rs lines
95-106): one combined write-[KEY_STATUS]-then-read-1 transaction. -/
def AsyncBbq10Kbd.get_key_status {ε : Type}
    (self : AsyncBbq10Kbd (AsyncBus ε)) :
    Except ε KeyStatus × List AsyncOp :=
  match self.i2c.transWR KBD_ADDR [register.KEY_STATUS] 1 with
  | .error e =>
    (.error e, [AsyncOp.transaction KBD_ADDR [register.KEY_STATUS] 1])
  | .ok bs =>
    (.ok (KeyStatus.from_byte ((readBuf 1 bs).headD 0)),
     [AsyncOp.transaction KBD_ADDR [register.KEY_STATUS] 1])

/-- The six driver operations; setBacklight carries its level argument. -/
inductive Op
  | getVersion
  | getFifoKeyRaw
  | getBacklight
  | setBacklight (level : Nat)
  | swReset
  | getKeyStatus
deriving DecidableEq, Repr

/-- A typed operation result, one variant per operation result type. -/
inductive OpResult
  | version (v : Version)
  | key (k : KeyRaw)
  | byte (b : Nat)
  | status (s : KeyStatus)
  | done
deriving DecidableEq, Repr

/-- Map an operation outcome into the shared result type, keeping the
trace. -/
def mapRes {ε α τ : Type} (f : α → OpResult) :
    Except ε α × List τ → Except ε OpResult × List τ
  | (r, t) => (r.map f, t)

/-- Run one operation of the blocking driver against a bus oracle. -/
def runBlocking {ε : Type} (op : Op) (bus : SyncBus ε) :
    Except Error OpResult × List WirePhase :=
  match op with
  | .getVersion => mapRes OpResult.version (Bbq10Kbd.new bus).get_version
  | .getFifoKeyRaw => mapRes OpResult.key (Bbq10Kbd.new bus).get_fifo_key_raw
  | .getBacklight => mapRes OpResult.byte (Bbq10Kbd.new bus).get_backlight
  | .setBacklight l =>
    mapRes (fun _ => OpResult.done) ((Bbq10Kbd.new bus).set_backlight l)
  | .swReset => mapRes (fun _ => OpResult.done) (Bbq10Kbd.new bus).sw_reset
  | .getKeyStatus => mapRes OpResult.status (Bbq10Kbd.new bus).get_key_status

/-- Run one operation of the suspend-capable driver against a bus oracle. -/
def runAsync {ε : Type} (op : Op) (bus : AsyncBus ε) :
    Except ε OpResult × List AsyncOp :=
  match op with
  | .getVersion => mapRes OpResult.version (AsyncBbq10Kbd.new bus).get_version
  | .getFifoKeyRaw =>
    mapRes OpResult.key (AsyncBbq10Kbd.new bus).get_fifo_key_raw
  | .getBacklight =>
    mapRes OpResult.byte (AsyncBbq10Kbd.new bus).get_backlight
  | .setBacklight l =>
    mapRes (fun _ => OpResult.done) ((AsyncBbq10Kbd.new bus).set_backlight l)
  | .swReset =>
    mapRes (fun _ => OpResult.done) (AsyncBbq10Kbd.new bus).sw_reset
  | .getKeyStatus =>
    mapRes OpResult.status (AsyncBbq10Kbd.new bus).get_key_status

/-- Wire phases put on the bus by one suspend-capable run, in order. -/
def asyncWire {ε : Type} (op : Op) (bus : AsyncBus ε) : List WirePhase :=
  ((runAsync op bus).2.map AsyncOp.flatten).flatten

/-- Transcription of the register table of spec section 4.1: for each
operation, the request phases on the wire at the fixed address 0x1F — the
documented request bytes written, then the documented response length read
(nothing read for the write-only operations). -/
def specRequestTable : Op → List WirePhase
  | .getVersion => [.write 0x1F [0x01], .read 0x1F 1]
  | .getFifoKeyRaw => [.write 0x1F [0x09], .read 0x1F 2]
  | .getBacklight => [.write 0x1F [0x05], .read 0x1F 1]
  | .setBacklight l => [.write 0x1F [0x85, l]]
  | .swReset => [.write 0x1F [0x08]]
  | .getKeyStatus => [.write 0x1F [0x04], .read 0x1F 1]

/-- Request bytes of the leading write of each operation, as the source
builds them. -/
def reqBytes : Op → List Nat
  | .getVersion => [register.VERSION]
  | .getFifoKeyRaw => [register.FIFO]
  | .getBacklight => [register.BACKLIGHT]
  | .setBacklight l => [register.BACKLIGHT ||| register.WRITE, l]
  | .swReset => [register.RESET]
  | .getKeyStatus => [register.KEY_STATUS]

/-- Response length of each operation; zero for the write-only ones. -/
def respLen : Op → Nat
  | .getVersion => 1
  | .getFifoKeyRaw => 2
  | .getBacklight => 1
  | .setBacklight _ => 0
  | .swReset => 0
  | .getKeyStatus => 1

/-- Blocking bus oracle on which every call succeeds and every read delivers
`bs`: a device answering `bs`. -/
def syncBusOf (bs : List Nat) : SyncBus Unit :=
  ⟨fun _ _ => .ok (), fun _ _ => .ok bs⟩

/-- Suspend-capable bus oracle on which every call succeeds and every
transaction delivers `bs`. -/
def asyncBusOf (bs : List Nat) : AsyncBus Unit :=
  ⟨fun _ _ _ => .ok bs, fun _ _ => .ok ()⟩

/-- Blocking bus whose every call fails with the unit transport error. -/
def syncFailBus : SyncBus Unit :=
  ⟨fun _ _ => .error (), fun _ _ => .error ()⟩

/-- Suspend-capable bus failing every call with the given numeric transport
error, carrying transport-level detail. -/
def asyncFailBus (e : Nat) : AsyncBus Nat :=
  ⟨fun _ _ _ => .error e, fun _ _ => .error e⟩

/-- Decoded typed result of each operation from its raw response bytes, as
both driver variants compute it. -/
def decodeResp : Op → List Nat → OpResult
  | .getVersion, bs => .version (Version.from_byte ((readBuf 1 bs).headD 0))
  | .getFifoKeyRaw, bs =>
    .key (KeyRaw.from_bytes ((readBuf 2 bs).headD 0, (readBuf 2 bs).getD 1 0))
  | .getBacklight, bs => .byte ((readBuf 1 bs).headD 0)
  | .setBacklight _, _ => .done
  | .swReset, _ => .done
  | .getKeyStatus, bs => .status (KeyStatus.from_byte ((readBuf 1 bs).headD 0))

end Bbq

namespace Bbq

set_option maxRecDepth 4000

/-- C3: for every byte b, `Version.from_byte` returns major equal to the high
nibble ((b >>> 4) &&& 0xF) and minor equal to the low nibble (b &&& 0xF). -/
theorem version_from_byte_nibbles : ∀ b : Nat, b < 256 →
    (Version.from_byte b).major = (b >>> 4) &&& 0xF ∧
    (Version.from_byte b).minor = b &&& 0xF := by
  decide

/-- Witness for C3: byte 0x23 decodes to major 2, minor 3. -/
theorem version_from_byte_nibbles_witness :
    (Version.from_byte 0x23).major = 2 ∧ (Version.from_byte 0x23).minor = 3 := by
  simpa using version_from_byte_nibbles 0x23 (by decide)

/-- C1: for every status byte b, `KeyStatus.from_byte` decodes: bit 5 set and
bits 4-0 zero gives caps Unknown with fifo EmptyOr32; bit 5 set and bits 4-0
nonzero gives caps On with fifo Known of those bits; bit 5 clear gives caps
Off with fifo Known of those bits. -/
theorem keyStatus_from_byte_cases : ∀ b : Nat, b < 256 →
    ((b &&& 0b00100000 ≠ 0 ∧ b &&& 0b00011111 = 0) →
       (KeyStatus.from_byte b).caps_lock = CapsLockState.Unknown ∧
       (KeyStatus.from_byte b).fifo_count = FifoCount.EmptyOr32) ∧
    ((b &&& 0b00100000 ≠ 0 ∧ b &&& 0b00011111 ≠ 0) →
       (KeyStatus.from_byte b).caps_lock = CapsLockState.On ∧
       (KeyStatus.from_byte b).fifo_count = FifoCount.Known (b &&& 0b00011111)) ∧
    (b &&& 0b00100000 = 0 →
       (KeyStatus.from_byte b).caps_lock = CapsLockState.Off ∧
       (KeyStatus.from_byte b).fifo_count = FifoCount.Known (b &&& 0b00011111)) := by
  decide

/-- Witness for C1: status byte 0b01100000 (bit 5 set, count 0) decodes to
the ambiguous caps Unknown with fifo EmptyOr32. -/
theorem keyStatus_from_byte_cases_witness :
    (KeyStatus.from_byte 0b01100000).caps_lock = CapsLockState.Unknown ∧
    (KeyStatus.from_byte 0b01100000).fifo_count = FifoCount.EmptyOr32 :=
  (keyStatus_from_byte_cases 0b01100000 (by decide)).1 (by decide)

/-- C4: for every FIFO entry (t, k), `KeyRaw.from_bytes` maps tag 1 to
Pressed k, tag 2 to Held k, tag 3 to Released k, and any other tag to
Invalid. -/
theorem keyRaw_from_bytes_tags : ∀ t k : Nat, t < 256 → k < 256 →
    (t = 1 → KeyRaw.from_bytes (t, k) = KeyRaw.Pressed k) ∧
    (t = 2 → KeyRaw.from_bytes (t, k) = KeyRaw.Held k) ∧
    (t = 3 → KeyRaw.from_bytes (t, k) = KeyRaw.Released k) ∧
    (t ≠ 1 → t ≠ 2 → t ≠ 3 → KeyRaw.from_bytes (t, k) = KeyRaw.Invalid) := by
  intro t k ht hk
  rcases t with _ | (_ | (_ | (_ | n))) <;>
    refine ⟨?_, ?_, ?_, ?_⟩ <;> intros <;> simp_all [KeyRaw.from_bytes]

/-- Witness for C4: FIFO bytes (2, 0x41) decode to Held 0x41. -/
theorem keyRaw_from_bytes_tags_witness :
    KeyRaw.from_bytes (2, 0x41) = KeyRaw.Held 0x41 :=
  (keyRaw_from_bytes_tags 2 0x41 (by decide) (by decide)).2.1 rfl

/-- C5: num-lock decoding is independent of caps and fifo decoding: num_lock
is On exactly when bit 6 is set, and flipping bit 6 alone never changes the
decoded caps_lock or fifo_count. -/
theorem numLock_independent : ∀ b : Nat, b < 256 →
    ((KeyStatus.from_byte b).num_lock = NumLockState.On ↔
       b &&& 0b01000000 ≠ 0) ∧
    (KeyStatus.from_byte (b ^^^ 0b01000000)).caps_lock =
       (KeyStatus.from_byte b).caps_lock ∧
    (KeyStatus.from_byte (b ^^^ 0b01000000)).fifo_count =
       (KeyStatus.from_byte b).fifo_count := by
  decide

/-- Witness for C5: at byte 0x45, num_lock decodes On, and flipping bit 6
(giving 0x05) leaves caps Off and fifo Known 5 unchanged. -/
theorem numLock_independent_witness :
    ((KeyStatus.from_byte 0x45).num_lock = NumLockState.On ↔
       0x45 &&& 0b01000000 ≠ 0) ∧
    (KeyStatus.from_byte (0x45 ^^^ 0b01000000)).caps_lock =
       (KeyStatus.from_byte 0x45).caps_lock ∧
    (KeyStatus.from_byte (0x45 ^^^ 0b01000000)).fifo_count =
       (KeyStatus.from_byte 0x45).fifo_count :=
  numLock_independent 0x45 (by decide)

/-- C10: for every status byte, the decoded caps_lock is Unknown exactly when
the decoded fifo_count is EmptyOr32. -/
theorem capsUnknown_iff_fifoEmptyOr32 : ∀ b : Nat, b < 256 →
    ((KeyStatus.from_byte b).caps_lock = CapsLockState.Unknown ↔
     (KeyStatus.from_byte b).fifo_count = FifoCount.EmptyOr32) := by
  decide

/-- Witness for C10: at byte 0x20 both ambiguity markers appear together. -/
theorem capsUnknown_iff_fifoEmptyOr32_witness :
    (KeyStatus.from_byte 0x20).caps_lock = CapsLockState.Unknown ↔
    (KeyStatus.from_byte 0x20).fifo_count = FifoCount.EmptyOr32 :=
  capsUnknown_iff_fifoEmptyOr32 0x20 (by decide)

/-- Helper for C8: the decoded version nibbles always fit in 4 bits. -/
theorem version_from_byte_lt16 : ∀ b : Nat, b < 256 →
    (Version.from_byte b).major < 16 ∧ (Version.from_byte b).minor < 16 := by
  decide

/-- Helper for C8: every 2-byte input decodes to one of the four KeyRaw
variants, the payload being the second byte. -/
theorem keyRaw_from_bytes_shape : ∀ t k : Nat,
    KeyRaw.from_bytes (t, k) = KeyRaw.Invalid ∨
    KeyRaw.from_bytes (t, k) = KeyRaw.Pressed k ∨
    KeyRaw.from_bytes (t, k) = KeyRaw.Held k ∨
    KeyRaw.from_bytes (t, k) = KeyRaw.Released k := by
  intro t k
  rcases t with _ | (_ | (_ | (_ | n))) <;> simp [KeyRaw.from_bytes]

/-- Helper for C8: the decoded fifo count is always in range. -/
theorem keyStatus_from_byte_inRange : ∀ b : Nat, b < 256 →
    FifoCount.inRange (KeyStatus.from_byte b).fifo_count = true := by
  decide

/-- C8: the three decoders are total over their full byte-range domains;
every input produces a defined, well-formed result (version nibbles below 16,
a KeyRaw variant carrying the key byte, a fifo count below 32), with no
failure path. -/
theorem decoders_total : ∀ b t k : Nat, b < 256 → t < 256 → k < 256 →
    ((Version.from_byte b).major < 16 ∧ (Version.from_byte b).minor < 16) ∧
    (KeyRaw.from_bytes (t, k) = KeyRaw.Invalid ∨
     KeyRaw.from_bytes (t, k) = KeyRaw.Pressed k ∨
     KeyRaw.from_bytes (t, k) = KeyRaw.Held k ∨
     KeyRaw.from_bytes (t, k) = KeyRaw.Released k) ∧
    FifoCount.inRange (KeyStatus.from_byte b).fifo_count = true :=
  fun b t k hb _ _ =>
    ⟨version_from_byte_lt16 b hb, keyRaw_from_bytes_shape t k,
     keyStatus_from_byte_inRange b hb⟩

/-- Witness for C8: the decoders produce well-formed values at the extreme
input 0xFF and at the FIFO pair (0, 0xFF). -/
theorem decoders_total_witness :
    ((Version.from_byte 0xFF).major < 16 ∧ (Version.from_byte 0xFF).minor < 16) ∧
    (KeyRaw.from_bytes (0, 0xFF) = KeyRaw.Invalid ∨
     KeyRaw.from_bytes (0, 0xFF) = KeyRaw.Pressed 0xFF ∨
     KeyRaw.from_bytes (0, 0xFF) = KeyRaw.Held 0xFF ∨
     KeyRaw.from_bytes (0, 0xFF) = KeyRaw.Released 0xFF) ∧
    FifoCount.inRange (KeyStatus.from_byte 0xFF).fifo_count = true :=
  decoders_total 0xFF 0 0xFF (by decide) (by decide) (by decide)

/-- Helper: the documented request table is the leading write followed by
the documented read, when the operation reads at all. -/
theorem specRequestTable_shape (op : Op) :
    specRequestTable op =
      WirePhase.write KBD_ADDR (reqBytes op) ::
        (if respLen op = 0 then []
         else [WirePhase.read KBD_ADDR (respLen op)]) := by
  cases op <;> rfl

/-- Helper: a blocking operation whose leading write fails returns the
opaque error and attempts nothing after that write. -/
theorem runBlocking_write_error {ε : Type} (op : Op) (bus : SyncBus ε) (e : ε)
    (hw : bus.writeRes KBD_ADDR (reqBytes op) = .error e) :
    runBlocking op bus =
      (.error Error.I2c, [WirePhase.write KBD_ADDR (reqBytes op)]) := by
  cases op <;>
    simp_all [runBlocking, mapRes, Bbq10Kbd.new, reqBytes,
      Bbq10Kbd.get_version, Bbq10Kbd.get_fifo_key_raw, Bbq10Kbd.get_backlight,
      Bbq10Kbd.set_backlight, Bbq10Kbd.sw_reset, Bbq10Kbd.get_key_status,
      Except.map, KBD_ADDR, register.VERSION, register.FIFO,
      register.BACKLIGHT, register.KEY_STATUS, register.RESET,
      register.WRITE]

/-- Helper: a blocking read operation whose read phase fails returns the
opaque error, the trace ending at that read. -/
theorem runBlocking_read_error {ε : Type} (op : Op) (bus : SyncBus ε)
    (u : Unit) (e : ε) (hn : respLen op ≠ 0)
    (hw : bus.writeRes KBD_ADDR (reqBytes op) = .ok u)
    (hr : bus.readRes KBD_ADDR (respLen op) = .error e) :
    runBlocking op bus = (.error Error.I2c, specRequestTable op) := by
  cases op <;>
    simp_all [runBlocking, mapRes, Bbq10Kbd.new, reqBytes, respLen,
      specRequestTable,
      Bbq10Kbd.get_version, Bbq10Kbd.get_fifo_key_raw, Bbq10Kbd.get_backlight,
      Bbq10Kbd.set_backlight, Bbq10Kbd.sw_reset, Bbq10Kbd.get_key_status,
      Except.map, KBD_ADDR, register.VERSION, register.FIFO,
      register.BACKLIGHT, register.KEY_STATUS, register.RESET,
      register.WRITE]

/-- Helper: a successful blocking read operation decodes the delivered
bytes, its trace being exactly the documented request phases. -/
theorem runBlocking_read_ok {ε : Type} (op : Op) (bus : SyncBus ε)
    (u : Unit) (bs : List Nat) (hn : respLen op ≠ 0)
    (hw : bus.writeRes KBD_ADDR (reqBytes op) = .ok u)
    (hr : bus.readRes KBD_ADDR (respLen op) = .ok bs) :
    runBlocking op bus = (.ok (decodeResp op bs), specRequestTable op) := by
  cases op <;>
    simp_all [runBlocking, mapRes, Bbq10Kbd.new, reqBytes, respLen,
      specRequestTable, decodeResp,
      Bbq10Kbd.get_version, Bbq10Kbd.get_fifo_key_raw, Bbq10Kbd.get_backlight,
      Bbq10Kbd.set_backlight, Bbq10Kbd.sw_reset, Bbq10Kbd.get_key_status,
      Except.map, KBD_ADDR, register.VERSION, register.FIFO,
      register.BACKLIGHT, register.KEY_STATUS, register.RESET,
      register.WRITE]

/-- Helper: a successful write-only blocking operation completes with its
single documented write. -/
theorem runBlocking_writeonly_ok {ε : Type} (op : Op) (bus : SyncBus ε)
    (u : Unit) (hn : respLen op = 0)
    (hw : bus.writeRes KBD_ADDR (reqBytes op) = .ok u) :
    runBlocking op bus = (.ok OpResult.done, specRequestTable op) := by
  cases op <;>
    simp_all [runBlocking, mapRes, Bbq10Kbd.new, reqBytes, respLen,
      specRequestTable,
      Bbq10Kbd.get_version, Bbq10Kbd.get_fifo_key_raw, Bbq10Kbd.get_backlight,
      Bbq10Kbd.set_backlight, Bbq10Kbd.sw_reset, Bbq10Kbd.get_key_status,
      Except.map, KBD_ADDR, register.VERSION, register.FIFO,
      register.BACKLIGHT, register.KEY_STATUS, register.RESET,
      register.WRITE]

/-- Helper: a suspend-capable operation whose combined transaction fails
propagates the transport's own error value, attempting nothing further. -/
theorem runAsync_trans_error {ε : Type} (op : Op) (bus : AsyncBus ε) (e : ε)
    (hn : respLen op ≠ 0)
    (ht : bus.transWR KBD_ADDR (reqBytes op) (respLen op) = .error e) :
    runAsync op bus =
      (.error e, [AsyncOp.transaction KBD_ADDR (reqBytes op) (respLen op)]) := by
  cases op <;>
    simp_all [runAsync, mapRes, AsyncBbq10Kbd.new, reqBytes, respLen,
      AsyncBbq10Kbd.get_version, AsyncBbq10Kbd.get_fifo_key_raw,
      AsyncBbq10Kbd.get_backlight, AsyncBbq10Kbd.set_backlight,
      AsyncBbq10Kbd.sw_reset, AsyncBbq10Kbd.get_key_status, Except.map]

/-- Helper: a suspend-capable write-only operation whose write fails
propagates the transport's own error value, attempting nothing further. -/
theorem runAsync_write_error {ε : Type} (op : Op) (bus : AsyncBus ε) (e : ε)
    (hn : respLen op = 0)
    (hw : bus.writeRes KBD_ADDR (reqBytes op) = .error e) :
    runAsync op bus = (.error e, [AsyncOp.write KBD_ADDR (reqBytes op)]) := by
  cases op <;>
    simp_all [runAsync, mapRes, AsyncBbq10Kbd.new, reqBytes, respLen,
      AsyncBbq10Kbd.get_version, AsyncBbq10Kbd.get_fifo_key_raw,
      AsyncBbq10Kbd.get_backlight, AsyncBbq10Kbd.set_backlight,
      AsyncBbq10Kbd.sw_reset, AsyncBbq10Kbd.get_key_status, Except.map]

/-- Helper: whatever the oracle answers, the wire phases of one
suspend-capable operation are exactly the documented request phases. -/
theorem asyncWire_eq {ε : Type} (op : Op) (bus : AsyncBus ε) :
    asyncWire op bus = specRequestTable op := by
  cases op with
  | getVersion =>
    cases h : bus.transWR KBD_ADDR [register.VERSION] 1 <;>
      simp_all [asyncWire, runAsync, mapRes, AsyncBbq10Kbd.new,
        AsyncBbq10Kbd.get_version, AsyncOp.flatten, specRequestTable,
        KBD_ADDR, register.VERSION]
  | getFifoKeyRaw =>
    cases h : bus.transWR KBD_ADDR [register.FIFO] 2 <;>
      simp_all [asyncWire, runAsync, mapRes, AsyncBbq10Kbd.new,
        AsyncBbq10Kbd.get_fifo_key_raw, AsyncOp.flatten, specRequestTable,
        KBD_ADDR, register.FIFO]
  | getBacklight =>
    cases h : bus.transWR KBD_ADDR [register.BACKLIGHT] 1 <;>
      simp_all [asyncWire, runAsync, mapRes, AsyncBbq10Kbd.new,
        AsyncBbq10Kbd.get_backlight, AsyncOp.flatten, specRequestTable,
        KBD_ADDR, register.BACKLIGHT]
  | setBacklight l =>
    cases h : bus.writeRes KBD_ADDR
        [register.BACKLIGHT ||| register.WRITE, l] <;>
      simp_all [asyncWire, runAsync, mapRes, AsyncBbq10Kbd.new,
        AsyncBbq10Kbd.set_backlight, AsyncOp.flatten, specRequestTable,
        KBD_ADDR, register.BACKLIGHT, register.WRITE]
  | swReset =>
    cases h : bus.writeRes KBD_ADDR [register.RESET] <;>
      simp_all [asyncWire, runAsync, mapRes, AsyncBbq10Kbd.new,
        AsyncBbq10Kbd.sw_reset, AsyncOp.flatten, specRequestTable,
        KBD_ADDR, register.RESET]
  | getKeyStatus =>
    cases h : bus.transWR KBD_ADDR [register.KEY_STATUS] 1 <;>
      simp_all [asyncWire, runAsync, mapRes, AsyncBbq10Kbd.new,
        AsyncBbq10Kbd.get_key_status, AsyncOp.flatten, specRequestTable,
        KBD_ADDR, register.KEY_STATUS]

/-- Helper: every phase of the documented request table targets 0x1F. -/
theorem addr_specRequestTable (op : Op) :
    ∀ p ∈ specRequestTable op, p.addr = 0x1F := by
  cases op <;> simp [specRequestTable, WirePhase.addr]

/-- C6: every bus phase of every operation, in either variant, targets the
fixed peripheral address 0x1F; the phases a blocking run attempts are always
an initial segment of the documented request table (get_version writes
[0x01] then reads 1, get_key_status writes [0x04] then reads 1,
get_backlight writes [0x05] then reads 1, get_fifo_key_raw writes [0x09]
then reads 2, set_backlight writes [0x85, level] with no read, sw_reset
writes [0x08] with no read), equal to it on a bus with no failures; the
suspend-capable run puts exactly the documented phases on the wire. -/
theorem requests_match_table : ∀ (ε : Type) (bus : SyncBus ε)
    (abus : AsyncBus ε) (op : Op),
    (∀ p ∈ (runBlocking op bus).2, p.addr = 0x1F) ∧
    (∃ t, (runBlocking op bus).2 ++ t = specRequestTable op) ∧
    (bus.NoFail → (runBlocking op bus).2 = specRequestTable op) ∧
    (∀ p ∈ asyncWire op abus, p.addr = 0x1F) ∧
    asyncWire op abus = specRequestTable op := by
  intro ε bus abus op
  have hblock : (∃ t, (runBlocking op bus).2 ++ t = specRequestTable op) ∧
      (bus.NoFail → (runBlocking op bus).2 = specRequestTable op) := by
    cases hw : bus.writeRes KBD_ADDR (reqBytes op) with
    | error e =>
      rw [runBlocking_write_error op bus e hw]
      constructor
      · exact ⟨(if respLen op = 0 then []
            else [WirePhase.read KBD_ADDR (respLen op)]),
          by rw [specRequestTable_shape op]; rfl⟩
      · intro hnf
        have h1 := hnf.1 KBD_ADDR (reqBytes op)
        rw [hw] at h1
        simp [exOk] at h1
    | ok u =>
      by_cases hn : respLen op = 0
      · rw [runBlocking_writeonly_ok op bus u hn hw]
        exact ⟨⟨[], List.append_nil _⟩, fun _ => rfl⟩
      · cases hr : bus.readRes KBD_ADDR (respLen op) with
        | error e =>
          rw [runBlocking_read_error op bus u e hn hw hr]
          exact ⟨⟨[], List.append_nil _⟩, fun _ => rfl⟩
        | ok bs =>
          rw [runBlocking_read_ok op bus u bs hn hw hr]
          exact ⟨⟨[], List.append_nil _⟩, fun _ => rfl⟩
  have hsub : ∀ p ∈ (runBlocking op bus).2, p ∈ specRequestTable op := by
    obtain ⟨t, ht⟩ := hblock.1
    intro p hp
    rw [← ht]
    exact List.mem_append_left _ hp
  refine ⟨fun p hp => addr_specRequestTable op p (hsub p hp),
    hblock.1, hblock.2,
    fun p hp => addr_specRequestTable op p ?_, asyncWire_eq op abus⟩
  rw [asyncWire_eq op abus] at hp
  exact hp

/-- Witness for C6: on a bus with no failures, get_version puts exactly the
documented phases (write [0x01] to 0x1F, read 1 byte) on the wire. -/
theorem requests_match_table_witness :
    (runBlocking Op.getVersion (syncBusOf [])).2 =
      specRequestTable Op.getVersion :=
  (requests_match_table Unit (syncBusOf []) (asyncBusOf [])
      Op.getVersion).2.2.1 ⟨fun _ _ => rfl, fun _ _ => rfl⟩

/-- C7: the blocking and suspend-capable variants have identical wire
semantics and decoding: for every operation, run against transports
answering the same response bytes, both put the same phases on the wire at
the same address in the same write-before-read order, and both return the
same typed value. -/
theorem variants_equivalent : ∀ (op : Op) (bs : List Nat),
    (runBlocking op (syncBusOf bs)).2 = asyncWire op (asyncBusOf bs) ∧
    ∃ r : OpResult,
      (runBlocking op (syncBusOf bs)).1 = Except.ok r ∧
      (runAsync op (asyncBusOf bs)).1 = Except.ok r := by
  intro op bs
  cases op <;> exact ⟨rfl, ⟨_, rfl, rfl⟩⟩

/-- Counterexample for C2: the suspend-capable variant does not discard the
transport's error detail — two transports failing with different error
values make get_version return different errors, so failures are not mapped
uniformly to one opaque error value. -/
theorem async_error_detail_preserved :
    ((AsyncBbq10Kbd.new (asyncFailBus 7)).get_version).1 = Except.error 7 ∧
    ((AsyncBbq10Kbd.new (asyncFailBus 9)).get_version).1 = Except.error 9 ∧
    ((AsyncBbq10Kbd.new (asyncFailBus 7)).get_version).1 ≠
      ((AsyncBbq10Kbd.new (asyncFailBus 9)).get_version).1 := by
  refine ⟨rfl, rfl, ?_⟩
  simp [AsyncBbq10Kbd.get_version, AsyncBbq10Kbd.new, asyncFailBus]

/-- C2 as amended: in the blocking variant any bus failure is mapped
uniformly to the one opaque `Error.I2c`, discarding the transport's error
detail, while the suspend-capable variant propagates the transport's own
error value unchanged; in both variants the operation returns the error
immediately and attempts no bus activity after the failing phase. -/
theorem error_uniform_and_immediate : ∀ (ε : Type) (bus : SyncBus ε)
    (abus : AsyncBus ε) (op : Op) (e : ε),
    (bus.writeRes KBD_ADDR (reqBytes op) = .error e →
       runBlocking op bus =
         (.error Error.I2c, [WirePhase.write KBD_ADDR (reqBytes op)])) ∧
    (∀ u, respLen op ≠ 0 → bus.writeRes KBD_ADDR (reqBytes op) = .ok u →
       bus.readRes KBD_ADDR (respLen op) = .error e →
       runBlocking op bus = (.error Error.I2c, specRequestTable op)) ∧
    (respLen op ≠ 0 →
       abus.transWR KBD_ADDR (reqBytes op) (respLen op) = .error e →
       runAsync op abus =
         (.error e, [AsyncOp.transaction KBD_ADDR (reqBytes op)
            (respLen op)])) ∧
    (respLen op = 0 → abus.writeRes KBD_ADDR (reqBytes op) = .error e →
       runAsync op abus = (.error e, [AsyncOp.write KBD_ADDR (reqBytes op)])) :=
  fun _ bus abus op e =>
    ⟨runBlocking_write_error op bus e,
     fun u hn hw hr => runBlocking_read_error op bus u e hn hw hr,
     fun hn ht => runAsync_trans_error op abus e hn ht,
     fun hn hw => runAsync_write_error op abus e hn hw⟩

/-- Witness for C2 as amended: on a bus whose writes fail, get_version
returns the opaque error after attempting only the leading write. -/
theorem error_uniform_and_immediate_witness :
    runBlocking Op.getVersion syncFailBus =
      (.error Error.I2c,
       [WirePhase.write KBD_ADDR (reqBytes Op.getVersion)]) :=
  (error_uniform_and_immediate Unit syncFailBus (asyncBusOf [])
      Op.getVersion ()).1 rfl

/-- C9: in both driver variants, release returns exactly the transport
handle supplied at construction; new and release are pure handle plumbing
with no bus access. -/
theorem release_returns_handle : ∀ (T : Type) (h : T),
    Bbq10Kbd.release (Bbq10Kbd.new h) = h ∧
    AsyncBbq10Kbd.release (AsyncBbq10Kbd.new h) = h :=
  fun _ _ => ⟨rfl, rfl⟩

end Bbq
